import Mathlib

/-!
# Verification of the job output manager (`job_output.py`)

A shallow embedding of the log/checkpoint lifecycle manager: the `JobOutput`
facade, its `_LogHelper` / `_LogSuppress` stream sinks, and its
write-temp-then-rename checkpoint protocol, modelled over an explicit
file-system state.  File-system effects are made explicit by threading an
`FS` value through every operation; the sequence of intermediate states of
`write_checkpoint` is exposed as a trace so that interruption at any step can
be examined.
-/

namespace JobOut

/-- An opaque structured record, standing for the arbitrary Python object
graphs that `torch.save` / `torch.load` serialize.  The checkpoint claims
quantify over all records of this domain. -/
inductive PyObj
  | pyNone
  | pyInt (n : Int)
  | pyStr (s : String)
  | pyPair (a b : PyObj)
  deriving DecidableEq, Repr

/-- Content of a file.  A log file holds text; a checkpoint file holds a
fully serialized record; `halfWritten` stands for a file whose serialization
was interrupted mid-write (opened but not yet completely written). -/
inductive FileContent
  | text (s : String)
  | ckpt (r : PyObj)
  | halfWritten
  deriving DecidableEq, Repr

/-- A file-system path, as a list of components (e.g.
`["logs_and_output", "group", "log_name.txt"]`). -/
abbrev Path := List String

/-- Association-list lookup of a file's content by path. -/
def lookupEntry : List (Path × FileContent) → Path → Option FileContent
  | [], _ => none
  | (q, c) :: rest, p => if q = p then some c else lookupEntry rest p

/-- Set (create or overwrite) the content of the file at `p`. -/
def setEntry : List (Path × FileContent) → Path → FileContent → List (Path × FileContent)
  | [], p, c => [(p, c)]
  | (q, d) :: rest, p, c =>
    if q = p then (p, c) :: rest else (q, d) :: setEntry rest p c

/-- Remove the file at `p` (models `Path.unlink`). -/
def removeEntry : List (Path × FileContent) → Path → List (Path × FileContent)
  | [], _ => []
  | (q, d) :: rest, p =>
    if q = p then removeEntry rest p else (q, d) :: removeEntry rest p

/-- The file-system state: the set of existing directories and the map from
file paths to file contents. -/
structure FS where
  dirs : List Path
  files : List (Path × FileContent)
  deriving DecidableEq, Repr

/-- Content of the file at `p`, or `none` if no such file exists. -/
def FS.lookupFile (fs : FS) (p : Path) : Option FileContent :=
  lookupEntry fs.files p

/-- Models `Path.exists` / `Path.is_file` on a file path. -/
def FS.fileExists (fs : FS) (p : Path) : Bool :=
  (fs.lookupFile p).isSome

/-- Whether the directory `p` exists. -/
def FS.dirExists (fs : FS) (p : Path) : Bool :=
  fs.dirs.contains p

/-- Create or overwrite the file at `p` with content `c`. -/
def FS.writeFile (fs : FS) (p : Path) (c : FileContent) : FS :=
  { fs with files := setEntry fs.files p c }

/-- Models `Path.unlink`. -/
def FS.unlinkFile (fs : FS) (p : Path) : FS :=
  { fs with files := removeEntry fs.files p }

/-- Models `Path.rename`: move the content at `src` to `dst`.  The source
only calls this when `src` exists and `dst` has been removed; a rename of a
non-existent source (which would raise in Python) is modelled as a no-op. -/
def FS.rename (fs : FS) (src dst : Path) : FS :=
  match fs.lookupFile src with
  | some c => { fs with files := setEntry (removeEntry fs.files src) dst c }
  | none => fs

/-- The non-empty prefixes of a path, shortest first: the chain of
directories `mkdir(parents=True)` would create. -/
def pathPrefixes : Path → List Path
  | [] => []
  | x :: xs => [x] :: (pathPrefixes xs).map (x :: ·)

/-- Models `Path.mkdir(parents=True, exist_ok=True)`: if the directory
already exists nothing happens; otherwise it and its missing ancestors are
created.  Files are never affected. -/
def FS.mkdirParents (fs : FS) (p : Path) : FS :=
  if fs.dirExists p then fs
  else { fs with dirs := fs.dirs ++ (pathPrefixes p).filter (fun q => !fs.dirs.contains q) }

/-- Models `path.open('a+')` followed by writing `s`: appends to an existing
text file, creates the file when absent.  Appending to a file holding
non-text content does not arise in the source (log files only ever hold
text) and is modelled as leaving the content unchanged. -/
def FS.appendText (fs : FS) (p : Path) (s : String) : FS :=
  match fs.lookupFile p with
  | some (.text t) => fs.writeFile p (.text (t ++ s))
  | some c => fs.writeFile p c
  | none => fs.writeFile p (.text s)

/-- A process output stream target.  `console i` is an underlying console
stream (the original `sys.stdout` / `sys.stderr`); `logHelper` models a
`_LogHelper(path, stream)` object (mirror writes to the file at `path` and
to `stream`); `logSuppress` models a `_LogSuppress(stream)` object (discard
writes, keep `stream` only for symmetry). -/
inductive OutStream
  | console (id : Nat)
  | logHelper (path : Path) (stream : OutStream)
  | logSuppress (stream : OutStream)
  deriving DecidableEq, Repr

/-- The `.stream` attribute of a `_LogHelper` / `_LogSuppress` object: the
underlying stream captured at construction.  `console` has no such
attribute in the source; it is mapped to itself. -/
def OutStream.stream : OutStream → OutStream
  | .console i => .console i
  | .logHelper _ s => s
  | .logSuppress s => s

/-- The mutable `sys.stdout` / `sys.stderr` pair of the process. -/
structure Sys where
  stdout : OutStream
  stderr : OutStream
  deriving DecidableEq, Repr

/-- One `write(x)` call on a stream target, acting on the file system and the
list of strings that actually reached a console stream.  `_LogHelper.write`
appends to the log file and forwards to the underlying stream;
`_LogSuppress.write` does nothing; writing to a console stream records the
output. -/
def OutStream.doWrite : OutStream → String → FS × List (Nat × String) → FS × List (Nat × String)
  | .console i, x, (fs, out) => (fs, out ++ [(i, x)])
  | .logHelper p under, x, (fs, out) => OutStream.doWrite under x (fs.appendText p x, out)
  | .logSuppress _, _, st => st

/-- A sequence of `write` calls on the same stream target. -/
def writeAll (t : OutStream) (xs : List String) (st : FS × List (Nat × String)) :
    FS × List (Nat × String) :=
  xs.foldl (fun acc x => t.doWrite x acc) st

/-- The error raised at construction: `LogAlreadyExistsError` with the
offending log path. -/
inductive InitError
  | logAlreadyExists (path : Path)
  deriving DecidableEq, Repr

/-- Error raised by `torch.load` on a file that is not a complete valid
serialized record. -/
inductive ReadError
  | deserialization
  deriving DecidableEq, Repr

/-- `job_name not in {'', 'none'}`: whether output is enabled. -/
def enabledName (n : String) : Bool :=
  !(n == "" || n == "none")

/-- `pathlib.Path('logs_and_output') / job_group`. -/
def outputDir (g : String) : Path := ["logs_and_output", g]

/-- `output_dir / 'log_{job_name}.txt'`. -/
def logPath (g n : String) : Path := outputDir g ++ ["log_" ++ n ++ ".txt"]

/-- `output_dir / job_name`. -/
def jobDir (g n : String) : Path := outputDir g ++ [n]

/-- `job_dir / 'ckpt.pth'`. -/
def ckptPath (g n : String) : Path := jobDir g n ++ ["ckpt.pth"]

/-- The fresh-run banner line written on a new log file; `now` is the
rendering of `datetime.datetime.now().strftime('%Y-%m-%d %H:%M:%S')`. -/
def startBanner (g n now : String) : String :=
  "Starting job " ++ g ++ "/" ++ n ++ " at " ++ now ++ "\n"

/-- The continuation banner line (the source's two adjacent string literals
concatenate into this single string before `.format` applies). -/
def contBanner (g n now : String) : String :=
  "=====\nContinuing job " ++ g ++ "/" ++ n ++ " at " ++ now ++ "\n"

/-- The state of a constructed `JobOutput` object: its fields after
`__init__` returns. -/
structure JobOutput where
  is_main : Bool
  enabled : Bool
  log_path : Option Path
  job_dir : Option Path
  checkpoint_path : Option Path
  stdoutSink : Option OutStream
  stderrSink : Option OutStream
  deriving DecidableEq, Repr

/-- The `JobOutput` built on the enabled, `is_main=True` path: paths set and
both sinks `_LogHelper(log_path, sys.stdout/stderr)`. -/
def mainJO (g n : String) (m : Bool) (sys : Sys) : JobOutput :=
  { is_main := m, enabled := true,
    log_path := some (logPath g n), job_dir := some (jobDir g n),
    checkpoint_path := some (ckptPath g n),
    stdoutSink := some (.logHelper (logPath g n) sys.stdout),
    stderrSink := some (.logHelper (logPath g n) sys.stderr) }

/-- The `JobOutput` built on the enabled, `is_main=False` path: paths set and
both sinks `_LogSuppress(sys.stdout/stderr)`. -/
def suppressJO (g n : String) (m : Bool) (sys : Sys) : JobOutput :=
  { is_main := m, enabled := true,
    log_path := some (logPath g n), job_dir := some (jobDir g n),
    checkpoint_path := some (ckptPath g n),
    stdoutSink := some (.logSuppress sys.stdout),
    stderrSink := some (.logSuppress sys.stderr) }

/-- The `JobOutput` built on the disabled path: all paths and sinks `None`. -/
def disabledJO (m : Bool) : JobOutput :=
  { is_main := m, enabled := false,
    log_path := none, job_dir := none, checkpoint_path := none,
    stdoutSink := none, stderrSink := none }

/-- `JobOutput.__init__(job_group, job_name, continue_job, is_main)`.
`now` is the timestamp string; `fs` the file system and `sys` the process
stream pair at construction time.  Returns the constructed object (or the
raised error) together with the file system after construction — the
`output_dir.mkdir(parents=True, exist_ok=True)` on the second line of
`__init__` runs before the enabled check and before any failure. -/
def JobOutput.init (g n : String) (continue_job is_main : Bool) (now : String)
    (fs : FS) (sys : Sys) : Except InitError JobOutput × FS :=
  let fs1 := fs.mkdirParents (outputDir g)
  if enabledName n then
    if is_main then
      if fs1.fileExists (logPath g n) then
        if continue_job then
          (.ok (mainJO g n is_main sys), fs1.appendText (logPath g n) (contBanner g n now))
        else
          (.error (.logAlreadyExists (logPath g n)), fs1)
      else
        (.ok (mainJO g n is_main sys), fs1.appendText (logPath g n) (startBanner g n now))
    else
      (.ok (suppressJO g n is_main sys), fs1)
  else
    (.ok (disabledJO is_main), fs1)

/-- `connect_streams`: if sinks were built, install them as the process
streams.  (The source checks `self.__stdout is not None` and assigns both;
the two sinks are always both present or both absent by construction.) -/
def JobOutput.connect_streams (jo : JobOutput) (sys : Sys) : Sys :=
  match jo.stdoutSink, jo.stderrSink with
  | some o, some e => { stdout := o, stderr := e }
  | _, _ => sys

/-- `disconnect_streams`: restore the process streams to the sinks'
captured `.stream` attributes. -/
def JobOutput.disconnect_streams (jo : JobOutput) (sys : Sys) : Sys :=
  match jo.stdoutSink, jo.stderrSink with
  | some o, some e => { stdout := o.stream, stderr := e.stream }
  | _, _ => sys

/-- `checkpoint_exists`. -/
def JobOutput.checkpoint_exists (jo : JobOutput) (fs : FS) : Bool :=
  match jo.checkpoint_path with
  | some p => fs.fileExists p
  | none => false

/-- `torch.load` on a file's content: succeeds exactly on a completely
written serialized record. -/
def torchLoad : FileContent → Except ReadError PyObj
  | .ckpt r => .ok r
  | _ => .error .deserialization

/-- `read_checkpoint`: `None` when disabled or when no checkpoint file
exists, otherwise the result of deserializing the file. -/
def JobOutput.read_checkpoint (jo : JobOutput) (fs : FS) : Except ReadError (Option PyObj) :=
  match jo.checkpoint_path with
  | some p =>
    if fs.fileExists p then
      match fs.lookupFile p with
      | some c => (torchLoad c).map some
      | none => .ok none
    else .ok none
  | none => .ok none

/-- The record stored in a file content, if any (used to state what a prior
checkpoint held). -/
def ckptOf : Option FileContent → Option PyObj
  | some (.ckpt r) => some r
  | _ => none

/-- The sequence of file-system states passed through by `write_checkpoint`,
starting with the state before the call.  On the enabled `is_main` path the
steps are: (1) `job_dir.mkdir(parents=True, exist_ok=True)`; (2) open the
temporary path `checkpoint_path + '.new'` for writing (content not yet
complete); (3) finish `torch.save` and close the handle; (4) unlink the old
checkpoint if it exists; (5) rename the temporary path onto
`checkpoint_path`.  Otherwise the call is a no-op and the trace is just the
initial state. -/
def JobOutput.writeCheckpointStates (jo : JobOutput) (r : PyObj) (fs : FS) : List FS :=
  match jo.checkpoint_path, jo.job_dir with
  | some ck, some jd =>
    if jo.is_main then
      let newPath := ck.dropLast ++ [ck.getLastD "" ++ ".new"]
      let fs1 := fs.mkdirParents jd
      let fs2 := fs1.writeFile newPath .halfWritten
      let fs3 := fs2.writeFile newPath (.ckpt r)
      let fs4 := if fs3.fileExists ck then fs3.unlinkFile ck else fs3
      let fs5 := fs4.rename newPath ck
      [fs, fs1, fs2, fs3, fs4, fs5]
    else [fs]
  | _, _ => [fs]

/-- `write_checkpoint(data)`: the file system after the full protocol. -/
def JobOutput.write_checkpoint (jo : JobOutput) (r : PyObj) (fs : FS) : FS :=
  (jo.writeCheckpointStates r fs).getLastD fs

/-- `get_output_file_path(filename)`: lazily creates the job directory and
returns the auxiliary path when enabled, `None` otherwise. -/
def JobOutput.get_output_file_path (jo : JobOutput) (filename : String) (fs : FS) :
    Option Path × FS :=
  match jo.job_dir with
  | some d => (some (d ++ [filename]), fs.mkdirParents d)
  | none => (none, fs)

/-! ## Basic lemmas about the file-system model -/

theorem lookupEntry_setEntry_eq (l : List (Path × FileContent)) (p : Path) (c : FileContent) :
    lookupEntry (setEntry l p c) p = some c := by
  induction l with
  | nil => simp [setEntry, lookupEntry]
  | cons hd tl ih =>
    obtain ⟨q, d⟩ := hd
    by_cases hq : q = p
    · simp [setEntry, lookupEntry, hq]
    · simp [setEntry, lookupEntry, hq, ih]

theorem lookupEntry_setEntry_ne (l : List (Path × FileContent)) (p q : Path) (c : FileContent)
    (h : q ≠ p) : lookupEntry (setEntry l p c) q = lookupEntry l q := by
  induction l with
  | nil => simp [setEntry, lookupEntry, Ne.symm h]
  | cons hd tl ih =>
    obtain ⟨q', d⟩ := hd
    by_cases hq : q' = p
    · subst hq
      simp [setEntry, lookupEntry, h, Ne.symm h]
    · simp only [setEntry, if_neg hq, lookupEntry]
      by_cases hq' : q' = q
      · simp [hq']
      · simp [hq', ih]

theorem lookupEntry_removeEntry_eq (l : List (Path × FileContent)) (p : Path) :
    lookupEntry (removeEntry l p) p = none := by
  induction l with
  | nil => simp [removeEntry, lookupEntry]
  | cons hd tl ih =>
    obtain ⟨q, d⟩ := hd
    by_cases hq : q = p
    · simp [removeEntry, hq, ih]
    · simp [removeEntry, lookupEntry, hq, ih]

theorem lookupEntry_removeEntry_ne (l : List (Path × FileContent)) (p q : Path)
    (h : q ≠ p) : lookupEntry (removeEntry l p) q = lookupEntry l q := by
  induction l with
  | nil => simp [removeEntry]
  | cons hd tl ih =>
    obtain ⟨q', d⟩ := hd
    by_cases hq : q' = p
    · subst hq
      simp [removeEntry, lookupEntry, Ne.symm h, ih]
    · simp only [removeEntry, if_neg hq, lookupEntry]
      by_cases hq' : q' = q
      · simp [hq']
      · simp [hq', ih]

theorem FS.mkdirParents_files (fs : FS) (p : Path) :
    (fs.mkdirParents p).files = fs.files := by
  unfold FS.mkdirParents
  split <;> rfl

theorem FS.mkdirParents_lookupFile (fs : FS) (p q : Path) :
    (fs.mkdirParents p).lookupFile q = fs.lookupFile q := by
  unfold FS.lookupFile
  rw [FS.mkdirParents_files]

theorem FS.mkdirParents_fileExists (fs : FS) (p q : Path) :
    (fs.mkdirParents p).fileExists q = fs.fileExists q := by
  unfold FS.fileExists
  rw [FS.mkdirParents_lookupFile]

theorem FS.mkdirParents_of_dirExists (fs : FS) (p : Path) (h : fs.dirExists p = true) :
    fs.mkdirParents p = fs := by
  unfold FS.mkdirParents
  simp [h]

theorem FS.writeFile_dirs (fs : FS) (p : Path) (c : FileContent) :
    (fs.writeFile p c).dirs = fs.dirs := rfl

theorem FS.unlinkFile_dirs (fs : FS) (p : Path) :
    (fs.unlinkFile p).dirs = fs.dirs := rfl

theorem FS.rename_dirs (fs : FS) (src dst : Path) :
    (fs.rename src dst).dirs = fs.dirs := by
  unfold FS.rename
  split <;> rfl

theorem FS.appendText_dirs (fs : FS) (p : Path) (s : String) :
    (fs.appendText p s).dirs = fs.dirs := by
  unfold FS.appendText
  split <;> rfl

theorem FS.writeFile_lookupFile_eq (fs : FS) (p : Path) (c : FileContent) :
    (fs.writeFile p c).lookupFile p = some c :=
  lookupEntry_setEntry_eq fs.files p c

theorem FS.writeFile_lookupFile_ne (fs : FS) (p q : Path) (c : FileContent) (h : q ≠ p) :
    (fs.writeFile p c).lookupFile q = fs.lookupFile q :=
  lookupEntry_setEntry_ne fs.files p q c h

theorem FS.unlinkFile_lookupFile_eq (fs : FS) (p : Path) :
    (fs.unlinkFile p).lookupFile p = none :=
  lookupEntry_removeEntry_eq fs.files p

theorem FS.unlinkFile_lookupFile_ne (fs : FS) (p q : Path) (h : q ≠ p) :
    (fs.unlinkFile p).lookupFile q = fs.lookupFile q :=
  lookupEntry_removeEntry_ne fs.files p q h

theorem FS.rename_lookupFile_dst (fs : FS) (src dst : Path) (c : FileContent)
    (hsrc : fs.lookupFile src = some c) :
    (fs.rename src dst).lookupFile dst = some c := by
  unfold FS.rename
  rw [hsrc]
  exact lookupEntry_setEntry_eq _ dst c

/-- Members of the prefix chain of `p` are no longer than `p`. -/
theorem pathPrefixes_length_le (p q : Path) (h : q ∈ pathPrefixes p) :
    q.length ≤ p.length := by
  induction p generalizing q with
  | nil => simp [pathPrefixes] at h
  | cons x xs ih =>
    simp only [pathPrefixes, List.mem_cons, List.mem_map] at h
    rcases h with h | ⟨q', hq', rfl⟩
    · subst h; simp
    · simpa using Nat.succ_le_succ (ih q' hq')

/-- `mkdir(parents=True)` on `p` cannot create a directory longer than `p`:
in particular the job directory is untouched by creating the job-group
directory. -/
theorem FS.mkdirParents_dirExists_longer (fs : FS) (p q : Path)
    (h : p.length < q.length) :
    (fs.mkdirParents p).dirExists q = fs.dirExists q := by
  unfold FS.mkdirParents
  split
  · rfl
  · unfold FS.dirExists
    simp
    intro hq
    exact absurd (pathPrefixes_length_le p q hq) (by omega)

/-- Non-empty paths appear in their own prefix chain. -/
theorem self_mem_pathPrefixes (p : Path) (h : p ≠ []) : p ∈ pathPrefixes p := by
  induction p with
  | nil => exact absurd rfl h
  | cons x xs ih =>
    rcases List.eq_nil_or_concat xs with h' | _
    · subst h'; simp [pathPrefixes]
    · simp only [pathPrefixes, List.mem_cons, List.mem_map]
      rcases List.eq_nil_or_concat xs with h'' | ⟨_, _, h''⟩
      · simp [h'']
      · right
        exact ⟨xs, ih (by simp [h'']), rfl⟩

theorem FS.mkdirParents_dirExists_self (fs : FS) (p : Path) (h : p ≠ []) :
    (fs.mkdirParents p).dirExists p = true := by
  unfold FS.mkdirParents
  split
  · assumption
  · next hne =>
    simp only [FS.dirExists] at hne
    have hne' : p ∉ fs.dirs := by simpa using hne
    unfold FS.dirExists
    simp
    exact Or.inr ⟨self_mem_pathPrefixes p h, hne'⟩

/-! ## Scenario lemmas for construction -/

/-- Disabled sentinel: construction succeeds with all fields `None`; the
only file-system effect is the job-group `mkdir`. -/
theorem init_disabled (g n : String) (cj m : Bool) (now : String) (fs : FS) (sys : Sys)
    (he : enabledName n = false) :
    JobOutput.init g n cj m now fs sys = (.ok (disabledJO m), fs.mkdirParents (outputDir g)) := by
  simp [JobOutput.init, he]

/-- Conflict: enabled, main, pre-existing log, `continue_job=False`. -/
theorem init_conflict (g n : String) (now : String) (fs : FS) (sys : Sys)
    (he : enabledName n = true) (hex : fs.fileExists (logPath g n) = true) :
    JobOutput.init g n false true now fs sys
      = (.error (.logAlreadyExists (logPath g n)), fs.mkdirParents (outputDir g)) := by
  simp [JobOutput.init, FS.mkdirParents_fileExists, he, hex]

/-- Continuation: enabled, main, pre-existing log, `continue_job=True`. -/
theorem init_continue (g n : String) (now : String) (fs : FS) (sys : Sys)
    (he : enabledName n = true) (hex : fs.fileExists (logPath g n) = true) :
    JobOutput.init g n true true now fs sys
      = (.ok (mainJO g n true sys),
         (fs.mkdirParents (outputDir g)).appendText (logPath g n) (contBanner g n now)) := by
  simp [JobOutput.init, FS.mkdirParents_fileExists, he, hex]

/-- Fresh run: enabled, main, no pre-existing log. -/
theorem init_fresh (g n : String) (cj : Bool) (now : String) (fs : FS) (sys : Sys)
    (he : enabledName n = true) (hex : fs.fileExists (logPath g n) = false) :
    JobOutput.init g n cj true now fs sys
      = (.ok (mainJO g n true sys),
         (fs.mkdirParents (outputDir g)).appendText (logPath g n) (startBanner g n now)) := by
  simp [JobOutput.init, FS.mkdirParents_fileExists, he, hex]

/-- Non-main: enabled, `is_main=False`: suppressor sinks, no log check or
write. -/
theorem init_nonmain (g n : String) (cj : Bool) (now : String) (fs : FS) (sys : Sys)
    (he : enabledName n = true) :
    JobOutput.init g n cj false now fs sys
      = (.ok (suppressJO g n false sys), fs.mkdirParents (outputDir g)) := by
  simp [JobOutput.init, he]

/-- Inversion: a successful enabled construction yields exactly the
main-sink object (when `is_main`) or the suppressor object. -/
theorem init_ok_jo (g n : String) (cj m : Bool) (now : String) (fs : FS) (sys : Sys)
    (jo : JobOutput) (fs1 : FS) (he : enabledName n = true)
    (h : JobOutput.init g n cj m now fs sys = (.ok jo, fs1)) :
    jo = if m then mainJO g n m sys else suppressJO g n m sys := by
  cases m with
  | false =>
    rw [init_nonmain g n cj now fs sys he] at h
    simp only [Prod.mk.injEq] at h
    obtain ⟨h1, -⟩ := h
    injection h1 with h1
    simp [h1]
  | true =>
    simp only [JobOutput.init, he, if_true] at h
    split at h
    · split at h
      · simp only [Prod.mk.injEq] at h
        obtain ⟨h1, -⟩ := h
        injection h1 with h1
        simp [h1]
      · simp at h
    · simp only [Prod.mk.injEq] at h
      obtain ⟨h1, -⟩ := h
      injection h1 with h1
      simp [h1]

/-! ## The checkpoint write protocol -/

/-- The temporary path `checkpoint_path.parent / (checkpoint_path.name + '.new')`. -/
def newCkpt (g n : String) : Path := ["logs_and_output", g, n, "ckpt.pth.new"]

theorem ckpt_new_path (g n : String) :
    (ckptPath g n).dropLast ++ [(ckptPath g n).getLastD "" ++ ".new"] = newCkpt g n := rfl

theorem newCkpt_ne_ckptPath (g n : String) : newCkpt g n ≠ ckptPath g n := by
  intro h
  have h' := congrArg (fun l : Path => l.getLastD "") h
  simp only [newCkpt, ckptPath, jobDir, outputDir] at h'
  simp at h'

theorem ckptPath_ne_newCkpt (g n : String) : ckptPath g n ≠ newCkpt g n :=
  fun h => newCkpt_ne_ckptPath g n h.symm

/-- State after step 1 of the save protocol: `job_dir.mkdir`. -/
def wcFS1 (g n : String) (fs : FS) : FS := fs.mkdirParents (jobDir g n)

/-- State after step 2: the temporary `.new` file opened, serialization in
progress. -/
def wcFS2 (g n : String) (fs : FS) : FS :=
  (wcFS1 g n fs).writeFile (newCkpt g n) .halfWritten

/-- State after step 3: serialization to the `.new` file complete. -/
def wcFS3 (g n : String) (r : PyObj) (fs : FS) : FS :=
  (wcFS2 g n fs).writeFile (newCkpt g n) (.ckpt r)

/-- State after step 4: the old checkpoint unlinked if it existed. -/
def wcFS4 (g n : String) (r : PyObj) (fs : FS) : FS :=
  if (wcFS3 g n r fs).fileExists (ckptPath g n) then
    (wcFS3 g n r fs).unlinkFile (ckptPath g n)
  else wcFS3 g n r fs

/-- State after step 5: the `.new` file renamed onto the checkpoint path. -/
def wcFS5 (g n : String) (r : PyObj) (fs : FS) : FS :=
  (wcFS4 g n r fs).rename (newCkpt g n) (ckptPath g n)

/-- The explicit six-state trace of `write_checkpoint` on the enabled main
path. -/
theorem writeCheckpointStates_main (g n : String) (sys : Sys) (r : PyObj) (fs : FS) :
    (mainJO g n true sys).writeCheckpointStates r fs =
      [fs, wcFS1 g n fs, wcFS2 g n fs, wcFS3 g n r fs, wcFS4 g n r fs, wcFS5 g n r fs] := rfl

/-- `write_checkpoint` on the enabled main path yields the final trace
state. -/
theorem write_checkpoint_main (g n : String) (sys : Sys) (r : PyObj) (fs : FS) :
    (mainJO g n true sys).write_checkpoint r fs = wcFS5 g n r fs := rfl

theorem wcFS1_lookup (g n : String) (fs : FS) (p : Path) :
    (wcFS1 g n fs).lookupFile p = fs.lookupFile p :=
  FS.mkdirParents_lookupFile fs (jobDir g n) p

theorem wcFS2_lookup_ck (g n : String) (fs : FS) :
    (wcFS2 g n fs).lookupFile (ckptPath g n) = fs.lookupFile (ckptPath g n) := by
  unfold wcFS2
  rw [FS.writeFile_lookupFile_ne _ _ _ _ (ckptPath_ne_newCkpt g n), wcFS1_lookup]

theorem wcFS3_lookup_ck (g n : String) (r : PyObj) (fs : FS) :
    (wcFS3 g n r fs).lookupFile (ckptPath g n) = fs.lookupFile (ckptPath g n) := by
  unfold wcFS3
  rw [FS.writeFile_lookupFile_ne _ _ _ _ (ckptPath_ne_newCkpt g n), wcFS2_lookup_ck]

theorem wcFS3_lookup_new (g n : String) (r : PyObj) (fs : FS) :
    (wcFS3 g n r fs).lookupFile (newCkpt g n) = some (.ckpt r) :=
  FS.writeFile_lookupFile_eq _ _ _

theorem wcFS4_lookup_ck (g n : String) (r : PyObj) (fs : FS) :
    (wcFS4 g n r fs).lookupFile (ckptPath g n) = fs.lookupFile (ckptPath g n) ∨
    (wcFS4 g n r fs).lookupFile (ckptPath g n) = none := by
  unfold wcFS4
  split
  · right; exact FS.unlinkFile_lookupFile_eq _ _
  · left; exact wcFS3_lookup_ck g n r fs

theorem wcFS4_lookup_new (g n : String) (r : PyObj) (fs : FS) :
    (wcFS4 g n r fs).lookupFile (newCkpt g n) = some (.ckpt r) := by
  unfold wcFS4
  split
  · rw [FS.unlinkFile_lookupFile_ne _ _ _ (newCkpt_ne_ckptPath g n)]
    exact wcFS3_lookup_new g n r fs
  · exact wcFS3_lookup_new g n r fs

theorem wcFS5_lookup_ck (g n : String) (r : PyObj) (fs : FS) :
    (wcFS5 g n r fs).lookupFile (ckptPath g n) = some (.ckpt r) :=
  FS.rename_lookupFile_dst _ _ _ _ (wcFS4_lookup_new g n r fs)

theorem wcFS5_dirs (g n : String) (r : PyObj) (fs : FS) :
    (wcFS5 g n r fs).dirs = (wcFS1 g n fs).dirs := by
  unfold wcFS5
  rw [FS.rename_dirs]
  unfold wcFS4
  split <;> simp [wcFS3, wcFS2, FS.unlinkFile_dirs, FS.writeFile_dirs]

/-- The save protocol ends with the job directory present. -/
theorem write_checkpoint_main_dirExists (g n : String) (sys : Sys) (r : PyObj) (fs : FS) :
    ((mainJO g n true sys).write_checkpoint r fs).dirExists (jobDir g n) = true := by
  rw [write_checkpoint_main]
  unfold FS.dirExists
  rw [wcFS5_dirs]
  exact FS.mkdirParents_dirExists_self fs (jobDir g n) (by simp [jobDir, outputDir])

/-- `write_checkpoint` by a non-main enabled unit is the identity on the
file system. -/
theorem write_checkpoint_nonmain (g n : String) (sys : Sys) (r : PyObj) (fs : FS) :
    (suppressJO g n false sys).write_checkpoint r fs = fs := by
  simp [JobOutput.write_checkpoint, JobOutput.writeCheckpointStates, suppressJO]

/-- `write_checkpoint` with output disabled is the identity on the file
system. -/
theorem write_checkpoint_disabled (m : Bool) (r : PyObj) (fs : FS) :
    (disabledJO m).write_checkpoint r fs = fs := by
  simp [JobOutput.write_checkpoint, JobOutput.writeCheckpointStates, disabledJO]

theorem FS.lookup_of_fileExists_false (fs : FS) (p : Path) (h : fs.fileExists p = false) :
    fs.lookupFile p = none := by
  unfold FS.fileExists at h
  cases hl : fs.lookupFile p with
  | none => rfl
  | some c => rw [hl] at h; simp at h

theorem contBanner_ne_empty (g n now : String) : contBanner g n now ≠ "" := by
  intro h
  have hlen := congrArg String.length h
  rw [contBanner, String.length_append] at hlen
  have h1 : "\n".length = 1 := rfl
  have h0 : "".length = 0 := rfl
  omega

/-! ## Claim theorems -/

/-- C2: for every enabled job identity with `is_main=true`, if the log path
exists and `continuation=false` then construction fails with
`LogAlreadyExistsError`, and the file system — in particular the log file's
content — is completely unchanged (no file is touched before the failure).
The directory hypothesis encodes the file-system invariant that the parent
directory of an existing file exists, which makes the initial job-group
`mkdir(exist_ok=True)` a no-op. -/
theorem C2_conflict_unchanged (g n now : String) (fs : FS) (sys : Sys)
    (he : enabledName n = true)
    (hex : fs.fileExists (logPath g n) = true)
    (hdir : fs.dirExists (outputDir g) = true) :
    JobOutput.init g n false true now fs sys
      = (.error (.logAlreadyExists (logPath g n)), fs) := by
  rw [init_conflict g n now fs sys he hex, FS.mkdirParents_of_dirExists fs _ hdir]

/-- A console stream pair, used as concrete construction-time process
streams in the witnesses. -/
def sys0 : Sys := ⟨.console 0, .console 1⟩

/-- A concrete file system holding a log file for job `grp/run` (and the
directories containing it). -/
def fsLog : FS :=
  ⟨[["logs_and_output"], ["logs_and_output", "grp"]],
   [(["logs_and_output", "grp", "log_run.txt"], .text "old line\n")]⟩

/-- Witness for C2 at a concrete pre-existing log file. -/
theorem C2_conflict_unchanged_witness :
    JobOutput.init "grp" "run" false true "2024-01-02 03:04:05" fsLog sys0
      = (.error (.logAlreadyExists (logPath "grp" "run")), fsLog) :=
  C2_conflict_unchanged "grp" "run" "2024-01-02 03:04:05" fsLog sys0
    (by decide) (by decide) (by decide)

/-- C7: for every enabled main-unit construction with a pre-existing log
file and `continuation=true`, construction succeeds, the log content
afterwards is the prior content followed by the continuation banner
`'=====\nContinuing job <group>/<name> at <timestamp>\n'` (with `now` the
`strftime('%Y-%m-%d %H:%M:%S')` rendering), and the banner is non-empty, so
the prior bytes are a strict prefix of the bytes after construction. -/
theorem C7_continuation_appends (g n now : String) (fs : FS) (sys : Sys) (t0 : String)
    (he : enabledName n = true)
    (hlog : fs.lookupFile (logPath g n) = some (.text t0)) :
    (JobOutput.init g n true true now fs sys).1 = .ok (mainJO g n true sys) ∧
    ((JobOutput.init g n true true now fs sys).2).lookupFile (logPath g n)
      = some (.text (t0 ++ contBanner g n now)) ∧
    contBanner g n now ≠ "" := by
  have hex : fs.fileExists (logPath g n) = true := by
    unfold FS.fileExists; rw [hlog]; rfl
  rw [init_continue g n now fs sys he hex]
  refine ⟨rfl, ?_, contBanner_ne_empty g n now⟩
  unfold FS.appendText
  rw [FS.mkdirParents_lookupFile, hlog]
  exact FS.writeFile_lookupFile_eq _ _ _

/-- Witness for C7 at a concrete pre-existing log file. -/
theorem C7_continuation_appends_witness :
    (JobOutput.init "grp" "run" true true "2024-01-02 03:04:05" fsLog sys0).1
      = .ok (mainJO "grp" "run" true sys0) ∧
    ((JobOutput.init "grp" "run" true true "2024-01-02 03:04:05" fsLog sys0).2).lookupFile
        (logPath "grp" "run")
      = some (.text ("old line\n" ++ contBanner "grp" "run" "2024-01-02 03:04:05")) ∧
    contBanner "grp" "run" "2024-01-02 03:04:05" ≠ "" :=
  C7_continuation_appends "grp" "run" "2024-01-02 03:04:05" fsLog sys0 "old line\n"
    (by decide) (by decide)

/-- C8: for every enabled main-unit construction with no pre-existing log
file, construction succeeds and the log file afterwards contains exactly
the single banner line `'Starting job <group>/<name> at <timestamp>\n'`. -/
theorem C8_fresh_banner (g n now : String) (cj : Bool) (fs : FS) (sys : Sys)
    (he : enabledName n = true)
    (hex : fs.fileExists (logPath g n) = false) :
    (JobOutput.init g n cj true now fs sys).1 = .ok (mainJO g n true sys) ∧
    ((JobOutput.init g n cj true now fs sys).2).lookupFile (logPath g n)
      = some (.text (startBanner g n now)) := by
  rw [init_fresh g n cj now fs sys he hex]
  refine ⟨rfl, ?_⟩
  unfold FS.appendText
  rw [FS.mkdirParents_lookupFile, FS.lookup_of_fileExists_false fs _ hex]
  exact FS.writeFile_lookupFile_eq _ _ _

/-- The empty file system. -/
def fsEmpty : FS := ⟨[], []⟩

/-- Witness for C8 starting from the empty file system. -/
theorem C8_fresh_banner_witness :
    (JobOutput.init "grp" "run" false true "2024-01-02 03:04:05" fsEmpty sys0).1
      = .ok (mainJO "grp" "run" true sys0) ∧
    ((JobOutput.init "grp" "run" false true "2024-01-02 03:04:05" fsEmpty sys0).2).lookupFile
        (logPath "grp" "run")
      = some (.text (startBanner "grp" "run" "2024-01-02 03:04:05")) :=
  C8_fresh_banner "grp" "run" "2024-01-02 03:04:05" false fsEmpty sys0 (by decide) (by decide)

/-- C4 counterexample: with the disabled sentinel `job_name=''`,
construction is not a file-system no-op — `output_dir.mkdir(parents=True,
exist_ok=True)` runs on the second line of `__init__`, before the enabled
check, and creates the `logs_and_output/<job_group>` directory. -/
theorem C4_counterexample :
    (JobOutput.init "grp" "" false true "2024-01-02 03:04:05" fsEmpty sys0).2 ≠ fsEmpty := by
  decide

/-- C4 (amended): for every job identity with a disabled sentinel name,
construction succeeds (no exception is possible), its only file-system
effect is creating the job-group directory (no file is created or
modified), and afterwards every operation — `checkpoint_exists`,
`read_checkpoint`, `write_checkpoint`, `get_output_file_path`,
`connect_streams`, `disconnect_streams` — is a no-op that never touches the
file system and cannot fail. -/
theorem C4_disabled_noop (g n : String) (cj m : Bool) (now : String) (fs : FS) (sys : Sys)
    (he : enabledName n = false) :
    JobOutput.init g n cj m now fs sys = (.ok (disabledJO m), fs.mkdirParents (outputDir g)) ∧
    (fs.mkdirParents (outputDir g)).files = fs.files ∧
    (∀ fsW, (disabledJO m).checkpoint_exists fsW = false) ∧
    (∀ fsW, (disabledJO m).read_checkpoint fsW = .ok none) ∧
    (∀ fsW r, (disabledJO m).write_checkpoint r fsW = fsW) ∧
    (∀ fsW fname, (disabledJO m).get_output_file_path fname fsW = (none, fsW)) ∧
    (∀ sysW, (disabledJO m).connect_streams sysW = sysW) ∧
    (∀ sysW, (disabledJO m).disconnect_streams sysW = sysW) := by
  refine ⟨init_disabled g n cj m now fs sys he, FS.mkdirParents_files fs _,
    ?_, ?_, ?_, ?_, ?_, ?_⟩ <;> intros <;> rfl

/-- Witness for the amended C4 at the sentinel name `'none'`. -/
theorem C4_disabled_noop_witness :
    JobOutput.init "grp" "none" false true "2024-01-02 03:04:05" fsEmpty sys0
      = (.ok (disabledJO true), fsEmpty.mkdirParents (outputDir "grp")) ∧
    (fsEmpty.mkdirParents (outputDir "grp")).files = fsEmpty.files ∧
    (∀ fsW, (disabledJO true).checkpoint_exists fsW = false) ∧
    (∀ fsW, (disabledJO true).read_checkpoint fsW = .ok none) ∧
    (∀ fsW r, (disabledJO true).write_checkpoint r fsW = fsW) ∧
    (∀ fsW fname, (disabledJO true).get_output_file_path fname fsW = (none, fsW)) ∧
    (∀ sysW, (disabledJO true).connect_streams sysW = sysW) ∧
    (∀ sysW, (disabledJO true).disconnect_streams sysW = sysW) :=
  C4_disabled_noop "grp" "none" false true "2024-01-02 03:04:05" fsEmpty sys0 (by decide)

/-- Writes through a `_LogSuppress` sink change nothing: neither the file
system nor any console output. -/
theorem writeAll_logSuppress (u : OutStream) (xs : List String)
    (st : FS × List (Nat × String)) : writeAll (.logSuppress u) xs st = st := by
  induction xs generalizing st with
  | nil => rfl
  | cons x xs ih =>
    rw [writeAll, List.foldl_cons]
    exact ih st

/-- C6: for every enabled facade constructed with `is_main=false`,
`write_checkpoint` leaves the file system completely unchanged (so it never
creates or modifies the checkpoint file nor creates the job directory), and
after `connect_streams` the installed process streams are `_LogSuppress`
sinks, through which any number of writes change neither the file system
(in particular the log file) nor the console output. -/
theorem C6_nonmain_suppression (g n : String) (cj : Bool) (now : String) (fs0 : FS)
    (sys : Sys) (jo : JobOutput) (fs1 : FS)
    (he : enabledName n = true)
    (hinit : JobOutput.init g n cj false now fs0 sys = (.ok jo, fs1)) :
    (∀ r fsW, jo.write_checkpoint r fsW = fsW) ∧
    (∀ sysW, jo.connect_streams sysW
        = ⟨.logSuppress sys.stdout, .logSuppress sys.stderr⟩) ∧
    (∀ xs st, writeAll (OutStream.logSuppress sys.stdout) xs st = st) ∧
    (∀ xs st, writeAll (OutStream.logSuppress sys.stderr) xs st = st) := by
  have hjo : jo = suppressJO g n false sys := by
    simpa using init_ok_jo g n cj false now fs0 sys jo fs1 he hinit
  subst hjo
  exact ⟨fun r fsW => write_checkpoint_nonmain g n sys r fsW,
    fun sysW => rfl,
    fun xs st => writeAll_logSuppress _ xs st,
    fun xs st => writeAll_logSuppress _ xs st⟩

/-- Witness for C6: a concrete non-main construction. -/
theorem C6_nonmain_suppression_witness :
    (∀ r fsW, (suppressJO "grp" "run" false sys0).write_checkpoint r fsW = fsW) ∧
    (∀ sysW, (suppressJO "grp" "run" false sys0).connect_streams sysW
        = ⟨.logSuppress sys0.stdout, .logSuppress sys0.stderr⟩) ∧
    (∀ xs st, writeAll (OutStream.logSuppress sys0.stdout) xs st = st) ∧
    (∀ xs st, writeAll (OutStream.logSuppress sys0.stderr) xs st = st) :=
  C6_nonmain_suppression "grp" "run" false "2024-01-02 03:04:05" fsEmpty sys0
    (suppressJO "grp" "run" false sys0)
    (fsEmpty.mkdirParents (outputDir "grp")) (by decide) rfl

/-- C10: for every enabled facade, `disconnect_streams` sets the process
streams back to the console streams captured at construction time — the
`sys.stdout`/`sys.stderr` values stored in the sinks when the facade was
built — regardless of what the process streams are at the moment of the
call; in particular `connect_streams` followed by `disconnect_streams`
restores the construction-time stream pair. -/
theorem C10_disconnect_restores (g n : String) (cj m : Bool) (now : String) (fs0 : FS)
    (sys : Sys) (jo : JobOutput) (fs1 : FS)
    (he : enabledName n = true)
    (hinit : JobOutput.init g n cj m now fs0 sys = (.ok jo, fs1)) :
    (∀ sysW, jo.disconnect_streams sysW = sys) ∧
    (∀ sysW, jo.disconnect_streams (jo.connect_streams sysW) = sys) := by
  have hjo := init_ok_jo g n cj m now fs0 sys jo fs1 he hinit
  cases m with
  | true =>
    rw [if_pos rfl] at hjo
    subst hjo
    exact ⟨fun sysW => rfl, fun sysW => rfl⟩
  | false =>
    rw [if_neg (by simp)] at hjo
    subst hjo
    exact ⟨fun sysW => rfl, fun sysW => rfl⟩

/-- Witness for C10: a concrete fresh main construction. -/
theorem C10_disconnect_restores_witness :
    (∀ sysW, (mainJO "grp" "run" true sys0).disconnect_streams sysW = sys0) ∧
    (∀ sysW, (mainJO "grp" "run" true sys0).disconnect_streams
        ((mainJO "grp" "run" true sys0).connect_streams sysW) = sys0) :=
  C10_disconnect_restores "grp" "run" false true "2024-01-02 03:04:05" fsEmpty sys0
    (mainJO "grp" "run" true sys0)
    ((fsEmpty.mkdirParents (outputDir "grp")).appendText (logPath "grp" "run")
      (startBanner "grp" "run" "2024-01-02 03:04:05"))
    (by decide) rfl

/-- C5: for every record in the serialization domain, `write_checkpoint(R)`
by an enabled main unit followed by `read_checkpoint()` returns exactly
`R`, from any file-system state at the time of the save. -/
theorem C5_roundtrip (g n : String) (cj : Bool) (now : String) (fs0 : FS) (sys : Sys)
    (jo : JobOutput) (fs1 : FS) (r : PyObj) (fsW : FS)
    (he : enabledName n = true)
    (hinit : JobOutput.init g n cj true now fs0 sys = (.ok jo, fs1)) :
    jo.read_checkpoint (jo.write_checkpoint r fsW) = .ok (some r) := by
  have hjo := init_ok_jo g n cj true now fs0 sys jo fs1 he hinit
  rw [if_pos rfl] at hjo
  subst hjo
  rw [write_checkpoint_main]
  have hl := wcFS5_lookup_ck g n r fsW
  simp [JobOutput.read_checkpoint, mainJO, FS.fileExists, hl, torchLoad, Except.map]

/-- Witness for C5 at a concrete structured record. -/
theorem C5_roundtrip_witness :
    (mainJO "grp" "run" true sys0).read_checkpoint
        ((mainJO "grp" "run" true sys0).write_checkpoint
          (.pyPair (.pyInt 3) (.pyStr "x")) fsEmpty)
      = .ok (some (.pyPair (.pyInt 3) (.pyStr "x"))) :=
  C5_roundtrip "grp" "run" false "2024-01-02 03:04:05" fsEmpty sys0
    (mainJO "grp" "run" true sys0)
    ((fsEmpty.mkdirParents (outputDir "grp")).appendText (logPath "grp" "run")
      (startBanner "grp" "run" "2024-01-02 03:04:05"))
    (.pyPair (.pyInt 3) (.pyStr "x")) fsEmpty (by decide) rfl

/-- Inversion: the file system returned by a successful enabled
construction has the directories of the initial job-group `mkdir` (the log
append touches no directory). -/
theorem init_ok_dirs (g n : String) (cj m : Bool) (now : String) (fs0 : FS) (sys : Sys)
    (jo : JobOutput) (fs1 : FS) (he : enabledName n = true)
    (hinit : JobOutput.init g n cj m now fs0 sys = (.ok jo, fs1)) :
    fs1.dirs = (fs0.mkdirParents (outputDir g)).dirs := by
  cases m with
  | false =>
    rw [init_nonmain g n cj now fs0 sys he] at hinit
    simp only [Prod.mk.injEq] at hinit
    rw [← hinit.2]
  | true =>
    simp only [JobOutput.init, he, if_true] at hinit
    split at hinit
    · split at hinit
      · simp only [Prod.mk.injEq] at hinit
        rw [← hinit.2, FS.appendText_dirs]
      · simp at hinit
    · simp only [Prod.mk.injEq] at hinit
      rw [← hinit.2, FS.appendText_dirs]

/-- C9: for every enabled job identity, construction leaves the job-group
directory existing, while the job directory's existence is unchanged (never
created eagerly at construction); the job directory exists after a
`write_checkpoint` by the main unit and after any `get_output_file_path`
request, which also returns the auxiliary path inside the job directory. -/
theorem C9_lazy_job_dir (g n : String) (cj m : Bool) (now : String) (fs0 : FS) (sys : Sys)
    (jo : JobOutput) (fs1 : FS)
    (he : enabledName n = true)
    (hinit : JobOutput.init g n cj m now fs0 sys = (.ok jo, fs1)) :
    fs1.dirExists (outputDir g) = true ∧
    fs1.dirExists (jobDir g n) = fs0.dirExists (jobDir g n) ∧
    (m = true → ∀ r fsW, (jo.write_checkpoint r fsW).dirExists (jobDir g n) = true) ∧
    (∀ fname fsW,
        ((jo.get_output_file_path fname fsW).2).dirExists (jobDir g n) = true ∧
        (jo.get_output_file_path fname fsW).1 = some (jobDir g n ++ [fname])) := by
  have hdirs := init_ok_dirs g n cj m now fs0 sys jo fs1 he hinit
  have hjo := init_ok_jo g n cj m now fs0 sys jo fs1 he hinit
  refine ⟨?_, ?_, ?_, ?_⟩
  · unfold FS.dirExists
    rw [hdirs]
    exact FS.mkdirParents_dirExists_self fs0 _ (by simp [outputDir])
  · unfold FS.dirExists
    rw [hdirs]
    have hlong := FS.mkdirParents_dirExists_longer fs0 (outputDir g) (jobDir g n)
      (by simp [outputDir, jobDir])
    unfold FS.dirExists at hlong
    exact hlong
  · intro hm r fsW
    subst hm
    rw [if_pos rfl] at hjo
    subst hjo
    exact write_checkpoint_main_dirExists g n sys r fsW
  · intro fname fsW
    have hjd : jo.job_dir = some (jobDir g n) := by
      cases m with
      | false => rw [if_neg (by simp)] at hjo; subst hjo; rfl
      | true => rw [if_pos rfl] at hjo; subst hjo; rfl
    refine ⟨?_, by simp [JobOutput.get_output_file_path, hjd]⟩
    simp only [JobOutput.get_output_file_path, hjd]
    exact FS.mkdirParents_dirExists_self fsW _ (by simp [jobDir, outputDir])

/-- Witness for C9: a concrete fresh main construction over the empty file
system. -/
theorem C9_lazy_job_dir_witness :
    ((fsEmpty.mkdirParents (outputDir "grp")).appendText (logPath "grp" "run")
        (startBanner "grp" "run" "2024-01-02 03:04:05")).dirExists (outputDir "grp") = true ∧
    ((fsEmpty.mkdirParents (outputDir "grp")).appendText (logPath "grp" "run")
        (startBanner "grp" "run" "2024-01-02 03:04:05")).dirExists (jobDir "grp" "run")
      = fsEmpty.dirExists (jobDir "grp" "run") ∧
    (true = true → ∀ r fsW,
        ((mainJO "grp" "run" true sys0).write_checkpoint r fsW).dirExists (jobDir "grp" "run")
          = true) ∧
    (∀ fname fsW,
        (((mainJO "grp" "run" true sys0).get_output_file_path fname fsW).2).dirExists
            (jobDir "grp" "run") = true ∧
        ((mainJO "grp" "run" true sys0).get_output_file_path fname fsW).1
          = some (jobDir "grp" "run" ++ [fname])) :=
  C9_lazy_job_dir "grp" "run" false true "2024-01-02 03:04:05" fsEmpty sys0
    (mainJO "grp" "run" true sys0)
    ((fsEmpty.mkdirParents (outputDir "grp")).appendText (logPath "grp" "run")
      (startBanner "grp" "run" "2024-01-02 03:04:05"))
    (by decide) rfl

/-- `read_checkpoint` by an enabled main unit, on a state whose checkpoint
path is absent or holds a completely written record, returns exactly that
record (or `None` when absent) — as a successful result, never an error. -/
theorem read_ck_of_lookup (g n : String) (sys : Sys) (st : FS)
    (h : st.lookupFile (ckptPath g n) = none ∨
         ∃ R0, st.lookupFile (ckptPath g n) = some (.ckpt R0)) :
    (mainJO g n true sys).read_checkpoint st = .ok (ckptOf (st.lookupFile (ckptPath g n))) := by
  rcases h with h | ⟨R0, h⟩ <;>
    simp [JobOutput.read_checkpoint, mainJO, FS.fileExists, h, torchLoad, ckptOf, Except.map]

/-- C3: if a save by an enabled main unit is interrupted at any point after
it begins but before the rename step (i.e. in any of the first five states
of the save trace), a subsequent `read_checkpoint` returns either the
previously stored record (when the checkpoint path held one) or `None` —
always a successful read, never a malformed or partially written record. -/
theorem C3_interrupted_load (g n : String) (cj : Bool) (now : String) (fs0 : FS) (sys : Sys)
    (jo : JobOutput) (fs1 : FS) (r : PyObj) (fsW : FS)
    (he : enabledName n = true)
    (hinit : JobOutput.init g n cj true now fs0 sys = (.ok jo, fs1))
    (hprev : fsW.lookupFile (ckptPath g n) = none ∨
             ∃ R0, fsW.lookupFile (ckptPath g n) = some (.ckpt R0)) :
    ∀ i, i < 5 →
      jo.read_checkpoint ((jo.writeCheckpointStates r fsW).getD i fsW)
          = .ok (ckptOf (fsW.lookupFile (ckptPath g n))) ∨
      jo.read_checkpoint ((jo.writeCheckpointStates r fsW).getD i fsW) = .ok none := by
  have hjo := init_ok_jo g n cj true now fs0 sys jo fs1 he hinit
  rw [if_pos rfl] at hjo
  subst hjo
  rw [writeCheckpointStates_main]
  have htrans : ∀ st : FS,
      st.lookupFile (ckptPath g n) = fsW.lookupFile (ckptPath g n) →
      (mainJO g n true sys).read_checkpoint st
        = .ok (ckptOf (fsW.lookupFile (ckptPath g n))) := by
    intro st hst
    rw [read_ck_of_lookup g n sys st (by rw [hst]; exact hprev), hst]
  intro i hi
  interval_cases i <;> simp only [List.getD_cons_zero, List.getD_cons_succ]
  · exact Or.inl (htrans fsW rfl)
  · exact Or.inl (htrans _ (wcFS1_lookup g n fsW _))
  · exact Or.inl (htrans _ (wcFS2_lookup_ck g n fsW))
  · exact Or.inl (htrans _ (wcFS3_lookup_ck g n r fsW))
  · rcases wcFS4_lookup_ck g n r fsW with h4 | h4
    · exact Or.inl (htrans _ h4)
    · right
      rw [read_ck_of_lookup g n sys _ (Or.inl h4), h4]
      rfl

/-- A concrete file system holding a previously saved checkpoint (record
`pyInt 7`) together with the log file and directories of job `grp/run`. -/
def fsPrev : FS :=
  ⟨[["logs_and_output"], ["logs_and_output", "grp"], ["logs_and_output", "grp", "run"]],
   [(["logs_and_output", "grp", "log_run.txt"], .text "old line\n"),
    (["logs_and_output", "grp", "run", "ckpt.pth"], .ckpt (.pyInt 7))]⟩

/-- Witness for C3: interruption over a state holding a previous
checkpoint, at the state right after the unlink of the old checkpoint. -/
theorem C3_interrupted_load_witness :
    (mainJO "grp" "run" true sys0).read_checkpoint
        (((mainJO "grp" "run" true sys0).writeCheckpointStates (.pyInt 8) fsPrev).getD 4 fsPrev)
      = .ok (ckptOf (fsPrev.lookupFile (ckptPath "grp" "run"))) ∨
    (mainJO "grp" "run" true sys0).read_checkpoint
        (((mainJO "grp" "run" true sys0).writeCheckpointStates (.pyInt 8) fsPrev).getD 4 fsPrev)
      = .ok none :=
  C3_interrupted_load "grp" "run" true "2024-01-02 03:04:05" fsPrev sys0
    (mainJO "grp" "run" true sys0)
    ((fsPrev.mkdirParents (outputDir "grp")).appendText (logPath "grp" "run")
      (contBanner "grp" "run" "2024-01-02 03:04:05"))
    (.pyInt 8) fsPrev (by decide) rfl (Or.inr ⟨.pyInt 7, rfl⟩) 4 (by decide)

/-- The file system right after a continuation construction over `fsPrev`,
used as the state in which the save protocol then runs. -/
def fsPrevAfter : FS :=
  (JobOutput.init "grp" "run" true true "2024-01-02 03:04:05" fsPrev sys0).2

/-- C1 counterexample: for an enabled main unit with a previously saved
checkpoint, the claim fails on the code.  The protocol deletes the old
checkpoint *before* the rename (lines 152–155), so in the state after the
unlink step neither the old nor the new checkpoint is visible at
`checkpoint_path` (the path resolves to nothing), and the rename is not the
only step that changes what `checkpoint_path` resolves to — the unlink
already changed it in a pre-rename state. -/
theorem C1_counterexample :
    (JobOutput.init "grp" "run" true true "2024-01-02 03:04:05" fsPrev sys0).1
      = .ok (mainJO "grp" "run" true sys0) ∧
    ¬ (∀ fs' ∈ (mainJO "grp" "run" true sys0).writeCheckpointStates (.pyInt 8) fsPrevAfter,
        fs'.lookupFile (ckptPath "grp" "run") = fsPrevAfter.lookupFile (ckptPath "grp" "run") ∨
        fs'.lookupFile (ckptPath "grp" "run") = some (.ckpt (.pyInt 8))) ∧
    ¬ (∀ fs' ∈ ((mainJO "grp" "run" true sys0).writeCheckpointStates
          (.pyInt 8) fsPrevAfter).dropLast,
        fs'.lookupFile (ckptPath "grp" "run")
          = fsPrevAfter.lookupFile (ckptPath "grp" "run")) := by
  refine ⟨rfl, ?_, ?_⟩ <;> decide

/-- C1 (amended): during `write_checkpoint` by an enabled main unit
(starting from a state whose checkpoint path is absent or holds a complete
record), at every instant the checkpoint path resolves to the old
checkpoint, to nothing, or to the new checkpoint — never to a half-written
file; every step before the unlink of the old checkpoint leaves the
resolution unchanged, so only the unlink and the final rename change what
`checkpoint_path` resolves to, and after the rename the new record is
visible. -/
theorem C1_amended_visibility (g n : String) (cj : Bool) (now : String) (fs0 : FS)
    (sys : Sys) (jo : JobOutput) (fs1 : FS) (r : PyObj) (fsW : FS)
    (he : enabledName n = true)
    (hinit : JobOutput.init g n cj true now fs0 sys = (.ok jo, fs1))
    (hprev : fsW.lookupFile (ckptPath g n) = none ∨
             ∃ R0, fsW.lookupFile (ckptPath g n) = some (.ckpt R0)) :
    (∀ fs' ∈ jo.writeCheckpointStates r fsW,
        (fs'.lookupFile (ckptPath g n) = fsW.lookupFile (ckptPath g n) ∨
         fs'.lookupFile (ckptPath g n) = none ∨
         fs'.lookupFile (ckptPath g n) = some (.ckpt r)) ∧
        fs'.lookupFile (ckptPath g n) ≠ some .halfWritten) ∧
    (∀ i, i < 4 →
        ((jo.writeCheckpointStates r fsW).getD i fsW).lookupFile (ckptPath g n)
          = fsW.lookupFile (ckptPath g n)) ∧
    ((jo.writeCheckpointStates r fsW).getD 5 fsW).lookupFile (ckptPath g n)
      = some (.ckpt r) := by
  have hjo := init_ok_jo g n cj true now fs0 sys jo fs1 he hinit
  rw [if_pos rfl] at hjo
  subst hjo
  rw [writeCheckpointStates_main]
  have hnotHW : fsW.lookupFile (ckptPath g n) ≠ some FileContent.halfWritten := by
    rcases hprev with h | ⟨R0, h⟩ <;> rw [h] <;> simp
  refine ⟨?_, ?_, ?_⟩
  · intro fs' hmem
    simp only [List.mem_cons, List.not_mem_nil, or_false] at hmem
    rcases hmem with rfl | rfl | rfl | rfl | rfl | rfl
    · exact ⟨Or.inl rfl, hnotHW⟩
    · rw [wcFS1_lookup g n fsW (ckptPath g n)]
      exact ⟨Or.inl rfl, hnotHW⟩
    · rw [wcFS2_lookup_ck g n fsW]
      exact ⟨Or.inl rfl, hnotHW⟩
    · rw [wcFS3_lookup_ck g n r fsW]
      exact ⟨Or.inl rfl, hnotHW⟩
    · rcases wcFS4_lookup_ck g n r fsW with h4 | h4 <;> rw [h4]
      · exact ⟨Or.inl rfl, hnotHW⟩
      · exact ⟨Or.inr (Or.inl rfl), by simp⟩
    · rw [wcFS5_lookup_ck g n r fsW]
      exact ⟨Or.inr (Or.inr rfl), by simp⟩
  · intro i hi
    interval_cases i <;> simp only [List.getD_cons_zero, List.getD_cons_succ]
    · exact wcFS1_lookup g n fsW _
    · exact wcFS2_lookup_ck g n fsW
    · exact wcFS3_lookup_ck g n r fsW
  · simp only [List.getD_cons_zero, List.getD_cons_succ]
    exact wcFS5_lookup_ck g n r fsW

/-- Witness for the amended C1: the save protocol over a state holding a
previous checkpoint. -/
theorem C1_amended_visibility_witness :
    (∀ fs' ∈ (mainJO "grp" "run" true sys0).writeCheckpointStates (.pyInt 8) fsPrev,
        (fs'.lookupFile (ckptPath "grp" "run") = fsPrev.lookupFile (ckptPath "grp" "run") ∨
         fs'.lookupFile (ckptPath "grp" "run") = none ∨
         fs'.lookupFile (ckptPath "grp" "run") = some (.ckpt (.pyInt 8))) ∧
        fs'.lookupFile (ckptPath "grp" "run") ≠ some .halfWritten) ∧
    (∀ i, i < 4 →
        (((mainJO "grp" "run" true sys0).writeCheckpointStates
            (.pyInt 8) fsPrev).getD i fsPrev).lookupFile (ckptPath "grp" "run")
          = fsPrev.lookupFile (ckptPath "grp" "run")) ∧
    (((mainJO "grp" "run" true sys0).writeCheckpointStates
        (.pyInt 8) fsPrev).getD 5 fsPrev).lookupFile (ckptPath "grp" "run")
      = some (.ckpt (.pyInt 8)) :=
  C1_amended_visibility "grp" "run" true "2024-01-02 03:04:05" fsPrev sys0
    (mainJO "grp" "run" true sys0)
    ((fsPrev.mkdirParents (outputDir "grp")).appendText (logPath "grp" "run")
      (contBanner "grp" "run" "2024-01-02 03:04:05"))
    (.pyInt 8) fsPrev (by decide) rfl (Or.inr ⟨.pyInt 7, rfl⟩)

end JobOut
